import Mathlib

/-!
Verification development for the cin7helpstock repository.

The definitions below are shallow embeddings of the sync / extraction /
warehouse-mapping / velocity logic found in the Python sources
(sync_manager.py, rate_limited_sync.py, optimized_sync.py,
unified_stock_app.py, cin7_client.py).  Each definition carries a doc
comment naming the function of the source it embeds.  Quantities are
modelled as rationals, calendar dates as integer day numbers, and the
SQLite tables as in-memory lists of rows.
-/

/-! ## String utilities (Python substring and split semantics) -/

/-- Whether the first character list is a prefix of the second
(executable helper for the Python `in` substring operator). -/
def charsStartsWith : List Char → List Char → Bool
  | [], _ => true
  | _ :: _, [] => false
  | p :: ps, c :: cs => p == c && charsStartsWith ps cs

/-- Whether the pattern occurs as a contiguous sublist. -/
def charsContains (pat : List Char) : List Char → Bool
  | [] => charsStartsWith pat []
  | c :: cs => charsStartsWith pat (c :: cs) || charsContains pat cs

/-- Python `pat in s` substring test (case-sensitive, as in Python). -/
def strIn (pat s : String) : Bool := charsContains pat.data s.data

/-- Python `s.split('T')[0]`, used on OrderDate strings to keep the date part. -/
def dateBeforeT (s : String) : String := (s.splitOn "T").headD ""

/-- Python `s.strip()`: drop whitespace from both ends. -/
def strStrip (s : String) : String :=
  ⟨((s.data.dropWhile Char.isWhitespace).reverse.dropWhile
      Char.isWhitespace).reverse⟩

/-- Python `s.upper()`: uppercase every character. -/
def strUpper (s : String) : String := ⟨s.data.map Char.toUpper⟩

/-! ## Data model

Mirrors the SQLite schema created by `sync_manager.SyncManager.init_sync_tables`
and `rate_limited_sync.RateLimitedCin7Sync.init_tables`:
products(sku UNIQUE, description), orders(order_number, sku, quantity,
warehouse, booking_date, reference_id UNIQUE),
sync_state(sync_type UNIQUE, last_sync_timestamp, last_sync_success). -/

/-- One row of the orders table. -/
structure OrderRow where
  order_number : String
  sku : String
  quantity : ℚ
  warehouse : String
  booking_date : String
  reference_id : String
deriving DecidableEq, Repr

/-- The persistent store: products(sku, description) and order rows. -/
structure Store where
  products : List (String × String)
  orders : List OrderRow
deriving DecidableEq, Repr

/-- The sync_state row for one sync type. -/
structure SyncState where
  last_sync_timestamp : String
  last_sync_success : Bool
deriving DecidableEq, Repr

/-- An order summary as returned by the SaleList endpoint
(SaleID, OrderNumber, OrderDate, Status fields used by the sync code). -/
structure OrderSummary where
  sale_id : String
  order_number : String
  order_date : String
  status : String
deriving DecidableEq, Repr

/-- A line of a fulfilment Pick record (SKU, Quantity, Location, Name). -/
structure PickLine where
  sku : String
  quantity : ℚ
  location : String
  name : String
deriving DecidableEq, Repr

/-- One fulfilment record: its Pick.Lines list. -/
structure Fulfilment where
  pickLines : List PickLine
deriving DecidableEq, Repr

/-- A header line of the order (Order.Lines entry: SKU, Quantity, Name). -/
structure HeaderLine where
  sku : String
  quantity : ℚ
  name : String
deriving DecidableEq, Repr

/-- An order detail payload as returned by the Sale endpoint:
header lines (Order.Lines), fulfilments (each with Pick.Lines),
and the order-level Location string. -/
structure OrderDetail where
  headerLines : List HeaderLine
  fulfilments : List Fulfilment
  location : String
deriving DecidableEq, Repr

/-! ## WarehouseMapper -/

/-- Embeds the per-pick-line warehouse test shared by
`sync_manager._map_warehouse_location` and
`optimized_sync._map_warehouse_optimized`: the first pick line whose
Location contains CNTVIC or VIC gives VIC, else WCLQLD or QLD gives QLD;
a line matching neither is passed over. -/
def pickLineWarehouse (loc : String) : Option String :=
  if strIn "CNTVIC" loc || strIn "VIC" loc then some "VIC"
  else if strIn "WCLQLD" loc || strIn "QLD" loc then some "QLD"
  else none

/-- Embeds `sync_manager.SyncManager._map_warehouse_location` (and the
identical `optimized_sync.OptimizedCin7Sync._map_warehouse_optimized`):
scan all fulfilment pick lines for a location match, else fall back to the
order-level Location, else default NSW. -/
def mapWarehouseFromDetail (detail : OrderDetail) : String :=
  match (detail.fulfilments.flatMap (fun f => f.pickLines)).findSome?
      (fun l => pickLineWarehouse l.location) with
  | some w => w
  | none =>
    if strIn "VIC" detail.location then "VIC"
    else if strIn "QLD" detail.location then "QLD"
    else "NSW"

/-- Embeds the inline per-line warehouse mapping of
`unified_stock_app.UnifiedCin7Client.sync_recent_orders` (lines 451-457):
warehouse = NSW unless the line location is a non-empty string containing
CNTVIC or VIC (then VIC), else WCLQLD or QLD (then QLD).  Header lines carry
location None and therefore map to NSW. -/
def mapLineWarehouse (location : Option String) : String :=
  match location with
  | none => "NSW"
  | some loc =>
    if loc.isEmpty then "NSW"
    else if strIn "CNTVIC" loc || strIn "VIC" loc then "VIC"
    else if strIn "WCLQLD" loc || strIn "QLD" loc then "QLD"
    else "NSW"

/-! ## LineExtractor -/

/-- An extracted line before storage, as built by
`unified_stock_app.sync_recent_orders` (sku, quantity, location, description);
header lines carry location None, pick lines carry their Location string. -/
structure ExtractedLine where
  sku : String
  quantity : ℚ
  location : Option String
  description : String
deriving DecidableEq, Repr

/-- Embeds the pick-line collection of
`unified_stock_app.UnifiedCin7Client.sync_recent_orders` (lines 409-424):
the union over all fulfilments of their Pick.Lines, each keeping its own
Location string. -/
def extractPickLines (detail : OrderDetail) : List ExtractedLine :=
  detail.fulfilments.flatMap (fun f =>
    f.pickLines.map (fun l =>
      { sku := strStrip l.sku, quantity := l.quantity,
        location := some l.location, description := l.name }))

/-- Embeds the header-line fallback of the same function (lines 425-435):
the Order.Lines entries, with no location attached. -/
def extractOrderLines (detail : OrderDetail) : List ExtractedLine :=
  detail.headerLines.map (fun l =>
    { sku := strStrip l.sku, quantity := l.quantity,
      location := none, description := l.name })

/-- Embeds the precedence choice of the same function (line 438):
lines_to_process = pick_lines if pick_lines else order_lines. -/
def linesToProcess (detail : OrderDetail) : List ExtractedLine :=
  let picks := extractPickLines detail
  if picks.isEmpty then extractOrderLines detail else picks

/-- A line ready for storage, as built by
`rate_limited_sync._extract_order_lines` and
`optimized_sync._extract_lines_optimized`. -/
structure Line where
  order_number : String
  sku : String
  description : String
  quantity : ℚ
  warehouse : String
  booking_date : String
  reference_id : String
deriving DecidableEq, Repr

/-- Embeds `optimized_sync.OptimizedCin7Sync._extract_lines_optimized`
(lines 377-414): lines are taken from the order header (Order.Lines) only;
a line with blank sku or non-positive quantity is dropped; the warehouse is
derived from the whole detail via the pick-location scan; the reference id
is SaleID, a colon, and the sku. -/
def extractLinesOptimized (order : OrderSummary) (detail : OrderDetail) :
    List Line :=
  detail.headerLines.filterMap (fun l =>
    let sku := strStrip l.sku
    if sku.isEmpty || l.quantity ≤ 0 then none
    else
      let warehouse := mapWarehouseFromDetail detail
      if warehouse = "VIC" ∨ warehouse = "QLD" ∨ warehouse = "NSW" then
        some { order_number := order.order_number, sku := sku,
               description := l.name, quantity := l.quantity,
               warehouse := warehouse,
               booking_date := dateBeforeT order.order_date,
               reference_id := order.sale_id ++ ":" ++ sku }
      else none)

/-! ## SyncStore operations -/

/-- Embeds the duplicate probe
`SELECT id FROM orders WHERE reference_id = ?` used by
`rate_limited_sync._store_order_line` and `sync_manager._process_order_lines`. -/
def hasReference (s : Store) (ref : String) : Bool :=
  s.orders.any (fun r => r.reference_id == ref)

/-- The sku column of the products table (the preloaded existing_skus set). -/
def storeSkus (s : Store) : List String := s.products.map Prod.fst

/-- Embeds `rate_limited_sync.RateLimitedCin7Sync._store_order_line`
(lines 307-345): return early (False) when the reference id already exists;
otherwise, unless dry_run, insert the product if its sku is new and append
the order row; return True (the line counts as stored) in both the wet and
the dry case. -/
def storeOrderLine (s : Store) (line : Line) (dryRun : Bool) : Store × Bool :=
  if hasReference s line.reference_id then (s, false)
  else if dryRun then (s, true)
  else
    let products :=
      if (storeSkus s).contains line.sku then s.products
      else s.products ++ [(line.sku, line.description)]
    ({ products := products,
       orders := s.orders ++
         [{ order_number := line.order_number, sku := line.sku,
            quantity := line.quantity, warehouse := line.warehouse,
            booking_date := line.booking_date,
            reference_id := line.reference_id }] },
     true)

/-- Embeds the per-order storage loop of
`rate_limited_sync.sync_date_window` (lines 216-221): store each extracted
line in turn, counting the lines reported as stored. -/
def storeLines (s : Store) (lines : List Line) (dryRun : Bool) : Store × Nat :=
  match lines with
  | [] => (s, 0)
  | l :: rest =>
    let p := storeOrderLine s l dryRun
    let q := storeLines p.1 rest dryRun
    (q.1, (if p.2 then 1 else 0) + q.2)

/-! ## Velocity -/

/-- One stored sale of a sku: booking date as an integer day number and the
quantity sold. -/
structure Sale where
  day : ℤ
  qty : ℚ
deriving DecidableEq, Repr

/-- SUM(quantity) over the rows in the query window. -/
def totalQty (sales : List Sale) : ℚ := (sales.map (fun s => s.qty)).sum

/-- MIN(booking_date) over the rows (first sale in the window). -/
def firstSaleDay : List Sale → ℤ
  | [] => 0
  | s :: rest => rest.foldl (fun m x => min m x.day) s.day

/-- MAX(booking_date) over the rows (last sale in the window). -/
def lastSaleDay : List Sale → ℤ
  | [] => 0
  | s :: rest => rest.foldl (fun m x => max m x.day) s.day

/-- Embeds the span computation of
`rate_limited_sync.calculate_velocity` (lines 469-477):
actual_days = (last_sale - first_sale).days + 1 when both dates exist. -/
def actualDays (sales : List Sale) : ℤ := lastSaleDay sales - firstSaleDay sales + 1

/-- Embeds the division of `rate_limited_sync.calculate_velocity` (line 480):
daily_velocity = total_qty / actual_days. -/
def dailyVelocityActual (sales : List Sale) : ℚ :=
  totalQty sales / (actualDays sales : ℚ)

/-- Embeds the period length of
`unified_stock_app.get_period_analysis` (lines 877-880):
period_days = (period_end - period_start).days + 1. -/
def periodDays (fromDay toDay : ℤ) : ℤ := toDay - fromDay + 1

/-- Embeds the division of `unified_stock_app.get_period_analysis` (line 885):
daily_velocity = total_quantity / period_days (the nominal window length). -/
def dailyVelocityPeriod (sales : List Sale) (fromDay toDay : ℤ) : ℚ :=
  totalQty sales / (periodDays fromDay toDay : ℚ)

/-! ## SyncOrchestrator: sync_manager.sync_recent_orders -/

/-- The counters accumulated by `sync_manager.sync_recent_orders`. -/
structure SMStats where
  processed : Nat
  inserted : Nat
  skipped : Nat
  voided : Nat
deriving DecidableEq, Repr

/-- Embeds the status test of `sync_manager.sync_recent_orders`
(lines 208-212): the upper-cased Status is one of VOIDED, VOID,
CANCELLED, CANCELED. -/
def isVoidedStatusSM (status : String) : Bool :=
  strUpper status == "VOIDED" || strUpper status == "VOID" ||
  strUpper status == "CANCELLED" || strUpper status == "CANCELED"

/-- Embeds `sync_manager.SyncManager._process_order_lines` (lines 286-357):
walk the header lines of the detail; drop a line with blank sku or
non-positive quantity; map the warehouse from the whole detail; skip the
line when its reference id is already stored; otherwise, unless dry_run,
insert the product if new and append the order row; count the line either
way.  The duplicate probe sees rows inserted earlier in the same pass,
since the Python code checks and inserts through the same connection. -/
def processOrderLinesSM (s : Store) (order : OrderSummary)
    (detail : OrderDetail) (dryRun : Bool) : Store × Nat :=
  (detail.headerLines.foldl (fun (acc : Store × Nat) l =>
    let sku := strStrip l.sku
    if sku.isEmpty || l.quantity ≤ 0 then acc
    else
      let warehouse := mapWarehouseFromDetail detail
      let ref := order.sale_id ++ ":" ++ sku
      if hasReference acc.1 ref then acc
      else if dryRun then (acc.1, acc.2 + 1)
      else
        let products :=
          if (storeSkus acc.1).contains sku then acc.1.products
          else acc.1.products ++ [(sku, l.name)]
        ({ products := products,
           orders := acc.1.orders ++
             [{ order_number := order.order_number, sku := sku,
                quantity := l.quantity, warehouse := warehouse,
                booking_date := dateBeforeT order.order_date,
                reference_id := ref }] },
         acc.2 + 1)) (s, 0))

/-- Embeds the per-order body of `sync_manager.sync_recent_orders`
(lines 205-229): count the order as processed; skip a voided order,
bumping the voided counter; skip an order whose detail fetch returned
nothing; otherwise process its lines, bumping inserted or skipped. -/
def processOrderSM (s : Store) (stats : SMStats) (order : OrderSummary)
    (detailResult : Option OrderDetail) (dryRun : Bool) : Store × SMStats :=
  let stats := { stats with processed := stats.processed + 1 }
  if isVoidedStatusSM order.status then
    (s, { stats with voided := stats.voided + 1 })
  else
    match detailResult with
    | none => (s, stats)
    | some detail =>
      let p := processOrderLinesSM s order detail dryRun
      if p.2 > 0 then (p.1, { stats with inserted := stats.inserted + p.2 })
      else (p.1, { stats with skipped := stats.skipped + 1 })

/-- One observed page of the SaleList pagination: either the fetched
summaries, each paired with the outcome of its detail fetch (None when
`_get_order_detail` swallowed an error), or a fatal fetch error raised by
`_make_request`. -/
inductive PageResult where
  | ok (entries : List (OrderSummary × Option OrderDetail))
  | fetchError
deriving Repr

/-- Embeds one ok page of `sync_manager.sync_recent_orders`. -/
def processPageSM (s : Store) (stats : SMStats)
    (entries : List (OrderSummary × Option OrderDetail)) (dryRun : Bool) :
    Store × SMStats :=
  entries.foldl (fun acc e => processOrderSM acc.1 acc.2 e.1 e.2 dryRun)
    (s, stats)

/-- Embeds the page loop of `sync_manager.sync_recent_orders`
(lines 183-244): pages are fetched in turn; an exception while fetching or
processing a page is caught and merely breaks the loop; an empty page or a
page shorter than the limit of 100 also ends the loop. -/
def runPagesSM (s : Store) (stats : SMStats) (dryRun : Bool) :
    List PageResult → Store × SMStats
  | [] => (s, stats)
  | PageResult.fetchError :: _ => (s, stats)
  | PageResult.ok entries :: rest =>
    if entries.isEmpty then (s, stats)
    else
      let p := processPageSM s stats entries dryRun
      if entries.length < 100 then p
      else runPagesSM p.1 p.2 dryRun rest

/-- Embeds `sync_manager.SyncManager.update_sync_state` (lines 140-152):
the row is overwritten with the given timestamp and success flag —
the timestamp column is written unconditionally, also on failure. -/
def update_sync_state (_st : SyncState) (timestamp : String) (success : Bool) :
    SyncState :=
  { last_sync_timestamp := timestamp, last_sync_success := success }

/-- Embeds `sync_manager.SyncManager.sync_recent_orders` (lines 154-265)
as far as the store and the sync_state row are concerned: run the page
loop (whose internal errors are swallowed), then, unless dry_run, write
sync_state with the pass start time and success = true (lines 248-250). -/
def syncRecentOrdersSM (st : SyncState) (s : Store) (syncStart : String)
    (dryRun : Bool) (pages : List PageResult) : SyncState × Store × SMStats :=
  let p := runPagesSM s ⟨0, 0, 0, 0⟩ dryRun pages
  if dryRun then (st, p.1, p.2)
  else (update_sync_state st syncStart true, p.1, p.2)

/-- Embeds the outer exception handler of the same function
(lines 267-275): on a fatal error escaping to it, unless dry_run, the
sync_state row is written with the pass start time and success = false. -/
def syncRecentOrdersSMFatal (st : SyncState) (syncStart : String)
    (dryRun : Bool) : SyncState :=
  if dryRun then st else update_sync_state st syncStart false

/-! ## SyncOrchestrator: optimized_sync._process_order_batch -/

/-- The counters of `optimized_sync._process_order_batch`. -/
structure BatchStats where
  processed : Nat
  inserted : Nat
  skipped : Nat
  voided : Nat
  lines_inserted : Nat
  duplicate_references : Nat
deriving DecidableEq, Repr

/-- The in-memory state threaded through
`optimized_sync._process_order_batch`: the preloaded reference-id set and
sku map, the batched rows awaiting insertion, and the counters. -/
structure OptState where
  refs : List String
  skuMap : List (String × String)
  newProducts : List (String × String)
  newOrders : List OrderRow
  stats : BatchStats
deriving DecidableEq, Repr

/-- Embeds the duplicate filter of `optimized_sync._process_order_batch`
(lines 306-316): keep the lines whose reference id is not in the preloaded
set, adding each kept reference to the cache; count the dropped ones. -/
def filterNewLines (refs : List String) (dups : Nat) :
    List Line → List Line × List String × Nat
  | [] => ([], refs, dups)
  | l :: rest =>
    if refs.contains l.reference_id then
      filterNewLines refs (dups + 1) rest
    else
      let p := filterNewLines (refs ++ [l.reference_id]) dups rest
      (l :: p.1, p.2.1, p.2.2)

/-- Embeds the per-order body of `optimized_sync._process_order_batch`
(lines 274-338): skip an order with Status VOIDED (voided counter), with a
blank order number or sale id, or with a failed detail fetch (skipped
counter); extract its lines; drop preloaded duplicates; batch the
survivors, registering new products in the sku map. -/
def processOrderOpt (st : OptState) (order : OrderSummary)
    (detailResult : Option OrderDetail) : OptState :=
  let st := { st with stats := { st.stats with processed := st.stats.processed + 1 } }
  if strUpper order.status == "VOIDED" then
    { st with stats := { st.stats with voided := st.stats.voided + 1 } }
  else if order.order_number.isEmpty || order.sale_id.isEmpty then
    { st with stats := { st.stats with skipped := st.stats.skipped + 1 } }
  else
    match detailResult with
    | none =>
      { st with stats := { st.stats with skipped := st.stats.skipped + 1 } }
    | some detail =>
      let lines := extractLinesOptimized order detail
      if lines.isEmpty then
        { st with stats := { st.stats with skipped := st.stats.skipped + 1 } }
      else
        let f := filterNewLines st.refs 0 lines
        let toStore := f.1
        let st := { st with
                    refs := f.2.1,
                    stats := { st.stats with
                               duplicate_references :=
                                 st.stats.duplicate_references + f.2.2 } }
        if toStore.isEmpty then
          { st with stats := { st.stats with skipped := st.stats.skipped + 1 } }
        else
          let st := { st with
                      stats := { st.stats with
                                 inserted := st.stats.inserted + 1,
                                 lines_inserted :=
                                   st.stats.lines_inserted + toStore.length } }
          toStore.foldl (fun acc l =>
            let acc :=
              if (acc.skuMap.map Prod.fst).contains l.sku then acc
              else { acc with
                newProducts := acc.newProducts ++ [(l.sku, l.description)],
                skuMap := acc.skuMap ++ [(l.sku, l.description)] }
            { acc with newOrders := acc.newOrders ++
                [{ order_number := l.order_number, sku := l.sku,
                   quantity := l.quantity, warehouse := l.warehouse,
                   booking_date := l.booking_date,
                   reference_id := l.reference_id }] }) st

/-- Embeds `optimized_sync._process_order_batch` over a whole batch,
starting from empty batch buffers and zero counters. -/
def processOrderBatch (refs : List String) (skuMap : List (String × String))
    (batch : List (OrderSummary × Option OrderDetail)) : OptState :=
  batch.foldl (fun acc e => processOrderOpt acc e.1 e.2)
    { refs := refs, skuMap := skuMap, newProducts := [], newOrders := [],
      stats := ⟨0, 0, 0, 0, 0, 0⟩ }

/-- Embeds the batch write of `optimized_sync._process_order_batch`
(lines 340-342) with `_batch_insert_data`: only when dry_run is false are
the batched products and order rows written to the store. -/
def applyBatch (s : Store) (st : OptState) (dryRun : Bool) : Store :=
  if dryRun then s
  else { products := s.products ++ st.newProducts,
         orders := s.orders ++ st.newOrders }

/-! ## SyncOrchestrator: unified_stock_app skip filter -/

/-- Embeds the pre-detail filter of
`unified_stock_app.UnifiedCin7Client.sync_recent_orders` (lines 382-398):
walk the page; drop a VOIDED order or one without a SaleID; when the bare
SaleID is a member of the preloaded reference_id set, count it as skipped
and issue no detail fetch; otherwise keep it for the detail call.
Returns (orders_to_detail, skipped_existing). -/
def filterOrdersForDetail (orders : List OrderSummary)
    (existingRefs : List String) : List OrderSummary × Nat :=
  orders.foldl (fun (acc : List OrderSummary × Nat) order =>
    if strUpper order.status == "VOIDED" then acc
    else if order.sale_id.isEmpty then acc
    else if existingRefs.contains order.sale_id then (acc.1, acc.2 + 1)
    else (acc.1 ++ [order], acc.2)) ([], 0)

/-! ## ApiGateway retry behaviour -/

/-- One HTTP response observed by a gateway request: a success body, a 429
with an optional Retry-After header, or a 503. -/
inductive ApiResponse where
  | ok (body : String)
  | tooMany (retryAfter : Option Nat)
  | serverBusy
deriving DecidableEq, Repr

/-- Embeds `rate_limited_sync.RateLimitedCin7Sync._make_request`
(lines 99-132) and, for the 429 branch, the identical
`optimized_sync._make_request` (lines 146-151): on 429 sleep for the
Retry-After value (60 when the header is absent) and retry the same
request; on 503 sleep 10 and retry; recursion is unbounded — the call
only ends when a response other than 429/503 arrives.  The input list is
the stream of responses the server produces for the repeated identical
request; the result pairs the final body with the sleeps performed, and is
none when the stream is exhausted without a success. -/
def makeRequestRL : List ApiResponse → Option (String × List Nat)
  | [] => none
  | ApiResponse.ok body :: _ => some (body, [])
  | ApiResponse.tooMany retryAfter :: rest =>
    match makeRequestRL rest with
    | some (body, sleeps) => some (body, retryAfter.getD 60 :: sleeps)
    | none => none
  | ApiResponse.serverBusy :: rest =>
    match makeRequestRL rest with
    | some (body, sleeps) => some (body, 10 :: sleeps)
    | none => none

/-- Embeds `sync_manager.SyncManager._make_request` (lines 96-119): on 429
it never reads the Retry-After header, always sleeps a fixed 60 seconds,
and retries the same request without an attempt cap.  A 503 is not handled
specially there (raise_for_status turns it into an exception), modelled as
ending the call with none. -/
def makeRequestSM : List ApiResponse → Option (String × List Nat)
  | [] => none
  | ApiResponse.ok body :: _ => some (body, [])
  | ApiResponse.tooMany _ :: rest =>
    match makeRequestSM rest with
    | some (body, sleeps) => some (body, 60 :: sleeps)
    | none => none
  | ApiResponse.serverBusy :: _ => none

/-- Embeds `cin7_client.Cin7Client._make_request` (lines 41-77), with
fuel = the remaining loop iterations of `for attempt in range(retry_count)`
and attempt = the current index: a 429 sleeps for Retry-After (default 5)
and continues the loop; a non-2xx such as 503 raises, is caught, sleeps
2 to the power of attempt and continues unless this was the last attempt;
exhausting the loop raises Failed after N attempts. -/
def cin7MakeRequestAux : Nat → Nat → List ApiResponse →
    Except String (String × List Nat)
  | 0, _, _ => Except.error "Failed after N attempts"
  | _ + 1, _, [] => Except.error "no response"
  | _ + 1, _, ApiResponse.ok body :: _ => Except.ok (body, [])
  | fuel + 1, attempt, ApiResponse.tooMany retryAfter :: rest =>
    (match cin7MakeRequestAux fuel (attempt + 1) rest with
     | Except.ok (body, sleeps) => Except.ok (body, retryAfter.getD 5 :: sleeps)
     | Except.error e => Except.error e)
  | fuel + 1, attempt, ApiResponse.serverBusy :: rest =>
    if 0 < fuel then
      match cin7MakeRequestAux fuel (attempt + 1) rest with
      | Except.ok (body, sleeps) => Except.ok (body, 2 ^ attempt :: sleeps)
      | Except.error e => Except.error e
    else Except.error "HTTPError"

/-- `cin7_client._make_request` with its default retry_count of 3. -/
def cin7MakeRequest (responses : List ApiResponse) :
    Except String (String × List Nat) :=
  cin7MakeRequestAux 3 0 responses

/-! ## RateLimiter -/

/-- The two request kinds distinguished by the rate limiters. -/
inductive CallKind where
  | list
  | detail
deriving DecidableEq, Repr

/-- The intervals of `rate_limited_sync.RateLimitedCin7Sync`
(min_interval = 1.2, detail_interval = 1.8 seconds, lines 37-38). -/
def intervalRL : CallKind → ℚ
  | CallKind.list => 6 / 5
  | CallKind.detail => 9 / 5

/-- The intervals of `optimized_sync.OptimizedCin7Sync`
(list_interval = 1.5, detail_interval = 1.8 seconds, lines 40-41). -/
def intervalOpt : CallKind → ℚ
  | CallKind.list => 3 / 2
  | CallKind.detail => 9 / 5

/-- Embeds `rate_limited_sync._wait_for_rate_limit` (lines 85-97) and
`optimized_sync._wait_for_rate_limit` (lines 118-129), parametrised by the
interval table: given the recorded time of the last request of any kind
and the current clock, sleep for required - elapsed when the elapsed time
is short, then record the new time; the returned value is the new
last_request_time, the instant at which the request is issued. -/
def waitForRateLimit (interval : CallKind → ℚ) (last now : ℚ)
    (kind : CallKind) : ℚ :=
  let elapsed := now - last
  let required := interval kind
  if elapsed < required then now + (required - elapsed) else now

/-! ## Lemmas about the store operations -/

/-- A reference id present in the store stays present after storing a line. -/
lemma hasReference_storeOrderLine_mono (s : Store) (l : Line) (dry : Bool)
    (ref : String) (h : hasReference s ref = true) :
    hasReference (storeOrderLine s l dry).1 ref = true := by
  cases hh : hasReference s l.reference_id with
  | true => simpa [storeOrderLine, hh]
  | false =>
    cases dry with
    | true => simpa [storeOrderLine, hh]
    | false =>
      simp only [storeOrderLine, hh, Bool.false_eq_true, if_false]
      simp only [hasReference, List.any_append] at h ⊢
      simp [h]

/-- After a wet store of a line, its reference id is present. -/
lemma hasReference_storeOrderLine_self (s : Store) (l : Line) :
    hasReference (storeOrderLine s l false).1 l.reference_id = true := by
  cases hh : hasReference s l.reference_id with
  | true => simp [storeOrderLine, hh]
  | false =>
    simp only [storeOrderLine, hh, Bool.false_eq_true, if_false]
    simp [hasReference, List.any_append]

/-- A reference id present in the store stays present after a storage pass. -/
lemma hasReference_storeLines_mono (s : Store) (lines : List Line)
    (dry : Bool) (ref : String) (h : hasReference s ref = true) :
    hasReference (storeLines s lines dry).1 ref = true := by
  induction lines generalizing s with
  | nil => simpa [storeLines] using h
  | cons l rest ih =>
    simp only [storeLines]
    exact ih _ (hasReference_storeOrderLine_mono s l dry ref h)

/-- After a wet pass, every processed line has its reference id stored. -/
lemma hasReference_storeLines_all (s : Store) (lines : List Line) :
    ∀ l ∈ lines,
      hasReference (storeLines s lines false).1 l.reference_id = true := by
  induction lines generalizing s with
  | nil => intro l hl; cases hl
  | cons a rest ih =>
    intro l hl
    rcases List.mem_cons.mp hl with h | h
    · subst h
      simp only [storeLines]
      exact hasReference_storeLines_mono _ rest false _
        (hasReference_storeOrderLine_self s l)
    · simp only [storeLines]
      exact ih _ l h

/-- A pass over lines whose reference ids are all already stored is a no-op
and reports zero stored lines. -/
lemma storeLines_noop (s : Store) (lines : List Line) (dry : Bool)
    (h : ∀ l ∈ lines, hasReference s l.reference_id = true) :
    storeLines s lines dry = (s, 0) := by
  induction lines with
  | nil => rfl
  | cons a rest ih =>
    have ha := h a (List.mem_cons_self a rest)
    have hs : storeOrderLine s a dry = (s, false) := by
      simp [storeOrderLine, ha]
    have hr : storeLines s rest dry = (s, 0) :=
      ih (fun l hl => h l (List.mem_cons_of_mem a hl))
    simp [storeLines, hs, hr]

/-- A wet store preserves uniqueness of the stored reference ids. -/
lemma storeOrderLine_nodup (s : Store) (l : Line) (dry : Bool)
    (h : (s.orders.map (fun r => r.reference_id)).Nodup) :
    ((storeOrderLine s l dry).1.orders.map (fun r => r.reference_id)).Nodup := by
  cases hh : hasReference s l.reference_id with
  | true => simpa [storeOrderLine, hh]
  | false =>
    cases dry with
    | true => simpa [storeOrderLine, hh]
    | false =>
      simp only [storeOrderLine, hh, Bool.false_eq_true, if_false]
      simp only [hasReference] at hh
      have hall : ∀ r ∈ s.orders, ¬ (r.reference_id == l.reference_id) = true :=
        List.any_eq_false.mp hh
      have hnot : l.reference_id ∉ s.orders.map (fun r => r.reference_id) := by
        intro hmem
        rcases List.mem_map.mp hmem with ⟨r, hr, hrref⟩
        exact hall r hr (by simp [hrref])
      simp [List.nodup_append, h, hnot]

/-- A storage pass preserves uniqueness of the stored reference ids. -/
lemma storeLines_nodup (s : Store) (lines : List Line) (dry : Bool)
    (h : (s.orders.map (fun r => r.reference_id)).Nodup) :
    ((storeLines s lines dry).1.orders.map (fun r => r.reference_id)).Nodup := by
  induction lines generalizing s with
  | nil => simpa [storeLines]
  | cons l rest ih =>
    simp only [storeLines]
    exact ih _ (storeOrderLine_nodup s l dry h)

/-- C1: running the same storage pass a second time over the same extracted
lines leaves the store exactly as after the first pass and stores zero new
lines — a line whose reference id is already present is never inserted
again — and a pass preserves uniqueness of the reference ids. -/
theorem claim_C1_sync_idempotent (s : Store) (lines : List Line) :
    storeLines (storeLines s lines false).1 lines false
      = ((storeLines s lines false).1, 0)
    ∧ ((s.orders.map (fun r => r.reference_id)).Nodup →
       ((storeLines s lines false).1.orders.map
          (fun r => r.reference_id)).Nodup) :=
  ⟨storeLines_noop _ lines false (hasReference_storeLines_all s lines),
   fun h => storeLines_nodup s lines false h⟩

/-- Concrete instance of C1: one stored line, second pass a no-op and the
reference ids stay unique. -/
theorem claim_C1_sync_idempotent_witness :
    (storeLines
        (storeLines ⟨[], []⟩
          [⟨"SO-1", "ABC", "Widget", 5, "NSW", "2024-01-01", "S1:ABC"⟩]
          false).1
        [⟨"SO-1", "ABC", "Widget", 5, "NSW", "2024-01-01", "S1:ABC"⟩] false
      = ((storeLines ⟨[], []⟩
          [⟨"SO-1", "ABC", "Widget", 5, "NSW", "2024-01-01", "S1:ABC"⟩]
          false).1, 0))
    ∧ ((storeLines ⟨[], []⟩
          [⟨"SO-1", "ABC", "Widget", 5, "NSW", "2024-01-01", "S1:ABC"⟩]
          false).1.orders.map (fun r => r.reference_id)).Nodup :=
  ⟨(claim_C1_sync_idempotent ⟨[], []⟩
      [⟨"SO-1", "ABC", "Widget", 5, "NSW", "2024-01-01", "S1:ABC"⟩]).1,
   (claim_C1_sync_idempotent ⟨[], []⟩
      [⟨"SO-1", "ABC", "Widget", 5, "NSW", "2024-01-01", "S1:ABC"⟩]).2
     (by decide)⟩

/-! ## C2: high-water mark on a fatally failed pass -/

/-- A pass observation in which page 1 returns a full page of 100 orders
and the page-2 SaleList fetch raises a fatal error. -/
def fatalPages : List PageResult :=
  [PageResult.ok (List.replicate 100
      (⟨"S1", "SO-1", "2024-01-01T00:00:00", "VOIDED"⟩, none)),
   PageResult.fetchError]

set_option maxRecDepth 40000 in
/-- C2, divergence of the code from the claim: after a pass whose page-2
list fetch raises a fatal error, `sync_recent_orders` still writes
sync_state with the pass start time T1 and success = true (the page error
is swallowed by the break), and even an error reaching the outer handler
overwrites last_sync_timestamp with T1 (success = false) — in both paths
the timestamp does not stay at its prior value T0 as the claim requires. -/
theorem claim_C2_highwater_divergence :
    syncRecentOrdersSM ⟨"T0", true⟩ ⟨[], []⟩ "T1" false fatalPages
      = (⟨"T1", true⟩, ⟨[], []⟩, ⟨100, 0, 0, 100⟩)
    ∧ syncRecentOrdersSMFatal ⟨"T0", true⟩ "T1" false = ⟨"T1", false⟩
    ∧ ("T1" : String) ≠ "T0" :=
  ⟨by decide, rfl, by decide⟩

/-! ## C3: pick-line precedence -/

/-- An order detail holding both a header line (sku X) and a fulfilment
pick line (sku Y, picked from a QLD location). -/
def detailHeaderAndPick : OrderDetail :=
  { headerLines := [⟨"X", 3, "Header widget"⟩],
    fulfilments := [⟨[⟨"Y", 1, "WCLQLD-BAY", "Picked widget"⟩]⟩],
    location := "" }

/-- An order detail with a header line and a pick line for the same sku X,
picked from a QLD location. -/
def detailPickQLD : OrderDetail :=
  { headerLines := [⟨"X", 3, "Widget"⟩],
    fulfilments := [⟨[⟨"X", 3, "WCLQLD-BAY-1", "Widget"⟩]⟩],
    location := "" }

/-- An order detail with no fulfilments and one header line. -/
def detailHeaderOnly : OrderDetail :=
  { headerLines := [⟨"Z", 2, "Zed widget"⟩], fulfilments := [], location := "" }

/-- C3 counterexample: on a detail with a non-empty fulfilment pick list,
`optimized_sync._extract_lines_optimized` returns the header-derived line
(sku X), not the union of the pick lines (sku Y) that the claim requires. -/
theorem claim_C3_counterexample :
    ((extractLinesOptimized ⟨"S9", "SO-9", "2024-05-05T10:00:00", "SHIPPED"⟩
        detailHeaderAndPick).map (fun l => l.sku) = ["X"])
    ∧ ((extractPickLines detailHeaderAndPick).map (fun l => l.sku) = ["Y"])
    ∧ detailHeaderAndPick.fulfilments.any (fun f => !f.pickLines.isEmpty)
        = true
    ∧ (["X"] : List String) ≠ ["Y"] := by
  refine ⟨by decide, by decide, by decide, by decide⟩

/-- C3 amended: in the unified app extractor the union of all fulfilment
pick lines is returned whenever some fulfilment has a non-empty pick list,
and the header lines (with no location) otherwise; in the pick case for a
QLD pick location the extracted line maps to warehouse QLD. -/
theorem claim_C3_pick_precedence_amended :
    (∀ detail : OrderDetail,
       (∃ f ∈ detail.fulfilments, f.pickLines ≠ []) →
         linesToProcess detail = extractPickLines detail)
    ∧ (∀ detail : OrderDetail,
       (∀ f ∈ detail.fulfilments, f.pickLines = []) →
         linesToProcess detail = extractOrderLines detail)
    ∧ ((linesToProcess detailPickQLD).map
         (fun l => (l.sku, l.quantity, mapLineWarehouse l.location))
        = [("X", 3, "QLD")]) := by
  refine ⟨?_, ?_, by decide⟩
  · intro detail hne
    rcases hne with ⟨f, hf, hfe⟩
    have hp : (extractPickLines detail).isEmpty = false := by
      cases hq : (extractPickLines detail).isEmpty with
      | false => rfl
      | true =>
        exfalso
        rw [List.isEmpty_iff] at hq
        unfold extractPickLines at hq
        rw [List.flatMap_eq_nil_iff] at hq
        have hn := hq f hf
        rw [List.map_eq_nil_iff] at hn
        exact hfe hn
    simp [linesToProcess, hp]
  · intro detail hall
    have hp : extractPickLines detail = [] := by
      unfold extractPickLines
      rw [List.flatMap_eq_nil_iff]
      intro f hf
      rw [List.map_eq_nil_iff]
      exact hall f hf
    simp [linesToProcess, hp]

/-- Concrete instance of the amended C3: the pick union wins on a detail
with a non-empty pick list, the header lines are used when every
fulfilment is pickless. -/
theorem claim_C3_pick_precedence_amended_witness :
    linesToProcess detailHeaderAndPick = extractPickLines detailHeaderAndPick
    ∧ linesToProcess detailHeaderOnly = extractOrderLines detailHeaderOnly :=
  ⟨claim_C3_pick_precedence_amended.1 detailHeaderAndPick (by decide),
   claim_C3_pick_precedence_amended.2.1 detailHeaderOnly (by decide)⟩

/-! ## C4: warehouse mapping -/

/-- C4 counterexample: the matching is case-sensitive, not case-insensitive
as claimed — a lower-case Victoria fragment maps to the default NSW in both
cited mappers, where case-insensitive matching would give VIC. -/
theorem claim_C4_counterexample :
    mapLineWarehouse (some "cntvic-melbourne") = "NSW"
    ∧ mapWarehouseFromDetail ⟨[], [⟨[⟨"A", 1, "cntvic", "a"⟩]⟩], "cntvic"⟩
        = "NSW"
    ∧ ("NSW" : String) ≠ "VIC" := by
  refine ⟨by decide, by decide, by decide⟩

/-- Every warehouse code produced by the pick-line scan is VIC or QLD. -/
lemma findSome?_pickWarehouse (l : List PickLine) (w : String)
    (h : l.findSome? (fun x => pickLineWarehouse x.location) = some w) :
    w = "VIC" ∨ w = "QLD" := by
  induction l with
  | nil => simp [List.findSome?] at h
  | cons a t ih =>
    rw [List.findSome?_cons] at h
    cases ha : pickLineWarehouse a.location with
    | none =>
      rw [ha] at h
      exact ih h
    | some v =>
      rw [ha] at h
      have hvw : v = w := by
        simp only [Option.some.injEq] at h
        exact h
      subst hvw
      unfold pickLineWarehouse at ha
      by_cases h1 : (strIn "CNTVIC" a.location || strIn "VIC" a.location)
          = true
      · rw [if_pos h1] at ha
        left
        simp only [Option.some.injEq] at ha
        exact ha.symm
      · rw [if_neg h1] at ha
        by_cases h2 : (strIn "WCLQLD" a.location || strIn "QLD" a.location)
            = true
        · rw [if_pos h2] at ha
          right
          simp only [Option.some.injEq] at ha
          exact ha.symm
        · rw [if_neg h2] at ha
          exact absurd ha (by simp)

/-- C4 amended: the mapper performs case-sensitive substring matching;
a missing location and every unmatched string map to the default NSW
(in particular map(None) = NSW and map("UNKNOWN-LOC") = NSW); a non-empty
string containing the Victoria fragment CNTVIC maps to VIC and one
containing the Queensland fragment WCLQLD (and no Victoria fragment) maps
to QLD; the detail-level mapper is total with range VIC/QLD/NSW. -/
theorem claim_C4_warehouse_default_amended :
    mapLineWarehouse none = "NSW"
    ∧ mapLineWarehouse (some "UNKNOWN-LOC") = "NSW"
    ∧ (∀ s : String, strIn "CNTVIC" s = false → strIn "VIC" s = false →
        strIn "WCLQLD" s = false → strIn "QLD" s = false →
        mapLineWarehouse (some s) = "NSW")
    ∧ (∀ s : String, s.isEmpty = false → strIn "CNTVIC" s = true →
        mapLineWarehouse (some s) = "VIC")
    ∧ (∀ s : String, s.isEmpty = false → strIn "WCLQLD" s = true →
        strIn "CNTVIC" s = false → strIn "VIC" s = false →
        mapLineWarehouse (some s) = "QLD")
    ∧ (∀ d : OrderDetail, mapWarehouseFromDetail d = "VIC"
        ∨ mapWarehouseFromDetail d = "QLD"
        ∨ mapWarehouseFromDetail d = "NSW") := by
  refine ⟨by decide, by decide, ?_, ?_, ?_, ?_⟩
  · intro s h1 h2 h3 h4
    cases he : s.isEmpty with
    | true => simp [mapLineWarehouse, he]
    | false => simp [mapLineWarehouse, he, h1, h2, h3, h4]
  · intro s he h1
    simp [mapLineWarehouse, he, h1]
  · intro s he h1 h2 h3
    simp [mapLineWarehouse, he, h1, h2, h3]
  · intro d
    unfold mapWarehouseFromDetail
    cases hf : (d.fulfilments.flatMap (fun f => f.pickLines)).findSome?
        (fun l => pickLineWarehouse l.location) with
    | none =>
      by_cases h1 : strIn "VIC" d.location = true
      · simp [h1]
      · by_cases h2 : strIn "QLD" d.location = true
        · simp [Bool.of_not_eq_true h1, h2]
        · simp [Bool.of_not_eq_true h1, Bool.of_not_eq_true h2]
    | some w =>
      rcases findSome?_pickWarehouse _ w hf with h | h
      · left; simp [h]
      · right; left; simp [h]

/-- Concrete instances of the amended C4: the default, the Victoria
fragment and the Queensland fragment. -/
theorem claim_C4_warehouse_default_amended_witness :
    mapLineWarehouse (some "UNKNOWN-LOC") = "NSW"
    ∧ mapLineWarehouse (some "CNTVIC-3PL") = "VIC"
    ∧ mapLineWarehouse (some "WCLQLD-DOCK") = "QLD" :=
  ⟨claim_C4_warehouse_default_amended.2.2.1 "UNKNOWN-LOC"
     (by decide) (by decide) (by decide) (by decide),
   claim_C4_warehouse_default_amended.2.2.2.1 "CNTVIC-3PL"
     (by decide) (by decide),
   claim_C4_warehouse_default_amended.2.2.2.2.1 "WCLQLD-DOCK"
     (by decide) (by decide) (by decide) (by decide)⟩

/-! ## C5: velocity division -/

/-- Three sales of quantity 10 each, all on the same calendar day. -/
def sameDaySales : List Sale := [⟨0, 10⟩, ⟨0, 10⟩, ⟨0, 10⟩]

/-- C5: for sales all on one day, the rate_limited_sync velocity equals the
total quantity (span 1 day), as the claim requires, but the
get_period_analysis velocity divides the same total by the nominal window
length (here a 500-day window), yielding 3/50 instead of 30. -/
theorem claim_C5_velocity_divergence :
    dailyVelocityActual sameDaySales = 30
    ∧ dailyVelocityPeriod sameDaySales 0 499 = 3 / 50
    ∧ ((3 : ℚ) / 50) ≠ 30 := by
  refine ⟨?_, ?_, by norm_num⟩
  · norm_num [dailyVelocityActual, totalQty, actualDays, firstSaleDay,
      lastSaleDay, sameDaySales]
  · norm_num [dailyVelocityPeriod, totalQty, periodDays, sameDaySales]

/-! ## C6: voided-order exclusion -/

/-- An order with status CANCELLED and a valid-looking line. -/
def cancelledOrder : OrderSummary :=
  ⟨"S2", "SO-2", "2024-02-02T00:00:00", "CANCELLED"⟩

/-- The detail of the cancelled order: one header line, no fulfilments. -/
def cancelledDetail : OrderDetail := ⟨[⟨"A", 2, "Widget A"⟩], [], ""⟩

/-- C6 counterexample: in `optimized_sync._process_order_batch` an order
with status CANCELLED is not excluded — its line is stored and the voided
counter stays 0, against the claim that a void/cancelled order contributes
zero stored lines and bumps the voided counter. -/
theorem claim_C6_counterexample :
    (processOrderBatch [] [] [(cancelledOrder, some cancelledDetail)]).stats.voided
      = 0
    ∧ (processOrderBatch [] [] [(cancelledOrder, some cancelledDetail)]).stats.lines_inserted
      = 1
    ∧ (processOrderBatch [] [] [(cancelledOrder, some cancelledDetail)]).newOrders.length
      = 1 := by
  refine ⟨by decide, by decide, by decide⟩

/-- C6 amended: `sync_manager.sync_recent_orders` excludes the four
statuses VOIDED, VOID, CANCELLED and CANCELED (upper-cased): zero lines
are stored and the voided counter is incremented; `optimized_sync`
(like rate_limited_sync and unified_stock_app) excludes only the single
upper-cased status VOIDED, so a CANCELLED order there is processed
normally. -/
theorem claim_C6_voided_amended :
    (∀ (s : Store) (stats : SMStats) (order : OrderSummary)
       (d : Option OrderDetail) (dry : Bool),
       isVoidedStatusSM order.status = true →
         processOrderSM s stats order d dry
           = (s, { stats with processed := stats.processed + 1,
                              voided := stats.voided + 1 }))
    ∧ (∀ (st : OptState) (order : OrderSummary) (d : Option OrderDetail),
       strUpper order.status = "VOIDED" →
         processOrderOpt st order d
           = { st with stats := { st.stats with
                 processed := st.stats.processed + 1,
                 voided := st.stats.voided + 1 } })
    ∧ isVoidedStatusSM "Cancelled" = true
    ∧ strUpper "CANCELLED" ≠ "VOIDED" := by
  refine ⟨?_, ?_, by decide, by decide⟩
  · intro s stats order d dry h
    simp [processOrderSM, h]
  · intro st order d h
    simp [processOrderOpt, h]

/-- Concrete instances of the amended C6: a Voided order is excluded by
the sync_manager pass; a VOIDED order is excluded by the optimized batch. -/
theorem claim_C6_voided_amended_witness :
    processOrderSM ⟨[], []⟩ ⟨0, 0, 0, 0⟩
        ⟨"S3", "SO-3", "2024-03-03T00:00:00", "Voided"⟩ none false
      = (⟨[], []⟩, ⟨1, 0, 0, 1⟩)
    ∧ processOrderOpt ⟨[], [], [], [], ⟨0, 0, 0, 0, 0, 0⟩⟩
        ⟨"S3", "SO-3", "2024-03-03T00:00:00", "VOIDED"⟩ none
      = ⟨[], [], [], [], ⟨1, 0, 0, 1, 0, 0⟩⟩ :=
  ⟨claim_C6_voided_amended.1 ⟨[], []⟩ ⟨0, 0, 0, 0⟩
     ⟨"S3", "SO-3", "2024-03-03T00:00:00", "Voided"⟩ none false (by decide),
   claim_C6_voided_amended.2.1 ⟨[], [], [], [], ⟨0, 0, 0, 0, 0, 0⟩⟩
     ⟨"S3", "SO-3", "2024-03-03T00:00:00", "VOIDED"⟩ none (by decide)⟩

/-! ## C7: skip-before-detail-fetch -/

/-- C7: divergence of the code from the claim.  The store already holds
the composite reference S1:ABC; an incoming order with SaleID S1 whose
line has sku ABC computes exactly that composite key, so the claim says
it is skipped with no detail fetch; but the filter probes the preloaded
set with the bare SaleID S1, which is not a member, so the order is kept
for the detail call and nothing is counted as skipped. -/
theorem claim_C7_skip_divergence :
    filterOrdersForDetail [⟨"S1", "SO-1", "2024-01-01T00:00:00", "SHIPPED"⟩]
        ["S1:ABC"]
      = ([⟨"S1", "SO-1", "2024-01-01T00:00:00", "SHIPPED"⟩], 0)
    ∧ ("S1" ++ ":" ++ "ABC" : String) = "S1:ABC"
    ∧ (["S1:ABC"] : List String).contains "S1:ABC" = true
    ∧ (["S1:ABC"] : List String).contains "S1" = false := by
  refine ⟨by decide, by decide, by decide, by decide⟩

/-! ## C8: 429 retry behaviour -/

/-- The rate_limited/optimized gateway retries through any number of 429
responses, sleeping Retry-After (default 60) each time. -/
lemma makeRequestRL_429_unbounded (ras : List (Option Nat)) (body : String) :
    makeRequestRL (ras.map ApiResponse.tooMany ++ [ApiResponse.ok body])
      = some (body, ras.map (fun ra => ra.getD 60)) := by
  induction ras with
  | nil => rfl
  | cons ra rest ih => simp [makeRequestRL, ih]

/-- The sync_manager gateway retries through any number of 429 responses,
sleeping a fixed 60 seconds each time, whatever the header says. -/
lemma makeRequestSM_429_unbounded (ras : List (Option Nat)) (body : String) :
    makeRequestSM (ras.map ApiResponse.tooMany ++ [ApiResponse.ok body])
      = some (body, ras.map (fun _ => 60)) := by
  induction ras with
  | nil => rfl
  | cons ra rest ih => simp [makeRequestSM, ih]

/-- C8 counterexample: the cin7_client gateway does not retry a 429
indefinitely — after three 429 responses it gives up even though a success
was next — and its Retry-After fallback is 5 seconds, not 60. -/
theorem claim_C8_counterexample :
    cin7MakeRequest (List.replicate 3 (ApiResponse.tooMany none)
        ++ [ApiResponse.ok "x"])
      = Except.error "Failed after N attempts"
    ∧ cin7MakeRequest [ApiResponse.tooMany none, ApiResponse.ok "x"]
        = Except.ok ("x", [5])
    ∧ (5 : Nat) ≠ 60 := by
  refine ⟨rfl, rfl, by decide⟩

/-- C8 amended: in rate_limited_sync and optimized_sync a 429 response is
retried indefinitely after sleeping the Retry-After value with fallback 60;
in sync_manager it is retried indefinitely after a fixed 60-second sleep
with the header ignored; in cin7_client the Retry-After fallback is 5
seconds and the retry loop is capped at 3 attempts. -/
theorem claim_C8_retry_amended :
    (∀ (ras : List (Option Nat)) (body : String),
       makeRequestRL (ras.map ApiResponse.tooMany ++ [ApiResponse.ok body])
         = some (body, ras.map (fun ra => ra.getD 60)))
    ∧ (∀ (ras : List (Option Nat)) (body : String),
       makeRequestSM (ras.map ApiResponse.tooMany ++ [ApiResponse.ok body])
         = some (body, ras.map (fun _ => 60)))
    ∧ cin7MakeRequest [ApiResponse.tooMany (some 7), ApiResponse.ok "b"]
        = Except.ok ("b", [7])
    ∧ cin7MakeRequest (List.replicate 3 (ApiResponse.tooMany (some 7))
        ++ [ApiResponse.ok "b"]) = Except.error "Failed after N attempts" :=
  ⟨makeRequestRL_429_unbounded, makeRequestSM_429_unbounded, rfl, rfl⟩

/-! ## C9: rate-limiter interval -/

/-- The next request is issued no earlier than the current instant and at
least the required interval after the recorded last request. -/
lemma waitForRateLimit_spec (interval : CallKind → ℚ) (last now : ℚ)
    (kind : CallKind) :
    interval kind ≤ waitForRateLimit interval last now kind - last
    ∧ now ≤ waitForRateLimit interval last now kind := by
  unfold waitForRateLimit
  dsimp only
  split
  · constructor <;> linarith
  · rename_i h
    rw [not_lt] at h
    constructor <;> linarith

/-- C9: for either limiter, waitTurn blocks until at least interval(kind)
has elapsed since the last request of any kind and never issues before the
current instant; the list and detail intervals are distinct fixed values
inside the 1.2 to 1.8 second range; the wait is a total function (it never
fails). -/
theorem claim_C9_rate_limiter_spacing :
    (∀ (last now : ℚ) (kind : CallKind),
       intervalRL kind ≤ waitForRateLimit intervalRL last now kind - last
       ∧ now ≤ waitForRateLimit intervalRL last now kind)
    ∧ (∀ (last now : ℚ) (kind : CallKind),
       intervalOpt kind ≤ waitForRateLimit intervalOpt last now kind - last
       ∧ now ≤ waitForRateLimit intervalOpt last now kind)
    ∧ intervalRL CallKind.list ≠ intervalRL CallKind.detail
    ∧ intervalOpt CallKind.list ≠ intervalOpt CallKind.detail
    ∧ (∀ kind : CallKind,
       6 / 5 ≤ intervalRL kind ∧ intervalRL kind ≤ 9 / 5
       ∧ 6 / 5 ≤ intervalOpt kind ∧ intervalOpt kind ≤ 9 / 5) := by
  refine ⟨fun last now kind => waitForRateLimit_spec intervalRL last now kind,
          fun last now kind => waitForRateLimit_spec intervalOpt last now kind,
          by norm_num [intervalRL], by norm_num [intervalOpt], ?_⟩
  intro kind
  cases kind <;> norm_num [intervalRL, intervalOpt]

/-! ## C10: dry-run frame property -/

/-- A fold whose step never changes the first component leaves it fixed. -/
lemma foldl_fst_fixed {α β γ : Type} (g : α × β → γ → α × β)
    (hg : ∀ acc x, (g acc x).1 = acc.1) :
    ∀ (l : List γ) (acc : α × β), (l.foldl g acc).1 = acc.1 := by
  intro l
  induction l with
  | nil => intro acc; rfl
  | cons x xs ih =>
    intro acc
    rw [List.foldl_cons, ih, hg]

/-- A dry line-processing pass writes nothing to the store. -/
lemma processOrderLinesSM_dry (s : Store) (order : OrderSummary)
    (detail : OrderDetail) :
    (processOrderLinesSM s order detail true).1 = s := by
  unfold processOrderLinesSM
  apply foldl_fst_fixed
  intro acc l
  dsimp only
  split
  · rfl
  · split
    · rfl
    · simp

/-- A dry per-order step writes nothing to the store. -/
lemma processOrderSM_dry (s : Store) (stats : SMStats)
    (order : OrderSummary) (d : Option OrderDetail) :
    (processOrderSM s stats order d true).1 = s := by
  simp only [processOrderSM]
  split
  · rfl
  · cases d with
    | none => rfl
    | some detail =>
      dsimp only
      split
      · simpa using processOrderLinesSM_dry s order detail
      · simpa using processOrderLinesSM_dry s order detail

/-- A dry page writes nothing to the store. -/
lemma processPageSM_dry (s : Store) (stats : SMStats)
    (entries : List (OrderSummary × Option OrderDetail)) :
    (processPageSM s stats entries true).1 = s := by
  unfold processPageSM
  exact foldl_fst_fixed _
    (fun acc e => processOrderSM_dry acc.1 acc.2 e.1 e.2) entries (s, stats)

/-- A dry page loop writes nothing to the store. -/
lemma runPagesSM_dry (s : Store) (stats : SMStats)
    (pages : List PageResult) :
    (runPagesSM s stats true pages).1 = s := by
  induction pages generalizing s stats with
  | nil => rfl
  | cons pg rest ih =>
    cases pg with
    | fetchError => rfl
    | ok entries =>
      simp only [runPagesSM]
      split
      · rfl
      · split
        · exact processPageSM_dry s stats entries
        · exact (ih _ _).trans (processPageSM_dry s stats entries)

/-- A dry storage pass keeps the store and counts exactly the lines whose
reference id is absent from the pre-pass store. -/
lemma storeLines_dry (s : Store) (lines : List Line) :
    storeLines s lines true
      = (s, (lines.filter
          (fun l => !hasReference s l.reference_id)).length) := by
  induction lines with
  | nil => rfl
  | cons a rest ih =>
    cases ha : hasReference s a.reference_id with
    | true =>
      have hs : storeOrderLine s a true = (s, false) := by
        simp [storeOrderLine, ha]
      simp [storeLines, hs, ih, List.filter_cons, ha]
    | false =>
      have hs : storeOrderLine s a true = (s, true) := by
        simp [storeOrderLine, ha]
      simp [storeLines, hs, ih, List.filter_cons, ha, Nat.add_comm]

/-- C10 counterexample: when one pass derives the same reference id twice
(an order with two header lines for the same sku), the dry-run statistic
counts 2 while a wet run would insert only 1 line, so the dry-run count is
not the number of lines that would have been inserted. -/
theorem claim_C10_counterexample :
    (storeLines ⟨[], []⟩
        [⟨"SO-7", "A", "Widget", 2, "NSW", "2024-01-05", "S7:A"⟩,
         ⟨"SO-7", "A", "Widget", 3, "NSW", "2024-01-05", "S7:A"⟩] true).2
      = 2
    ∧ (storeLines ⟨[], []⟩
        [⟨"SO-7", "A", "Widget", 2, "NSW", "2024-01-05", "S7:A"⟩,
         ⟨"SO-7", "A", "Widget", 3, "NSW", "2024-01-05", "S7:A"⟩] false).2
      = 1
    ∧ (2 : Nat) ≠ 1 := by
  refine ⟨by decide, by decide, by decide⟩

/-- C10 amended: a dry-run pass leaves the orders and products tables and
(in the incremental sync_manager variant) the sync_state row unchanged,
and the optimized batch writes nothing; the dry-run statistic counts the
lines whose reference id is absent from the pre-pass store, which can
exceed the wet insert count when a pass derives one reference id twice. -/
theorem claim_C10_dry_run_amended :
    (∀ (s : Store) (lines : List Line),
       storeLines s lines true
         = (s, (lines.filter
             (fun l => !hasReference s l.reference_id)).length))
    ∧ (∀ (st : SyncState) (s : Store) (syncStart : String)
         (pages : List PageResult),
       (syncRecentOrdersSM st s syncStart true pages).1 = st
       ∧ (syncRecentOrdersSM st s syncStart true pages).2.1 = s)
    ∧ (∀ (s : Store) (ost : OptState), applyBatch s ost true = s) :=
  ⟨storeLines_dry,
   fun _st s _syncStart pages =>
     ⟨rfl, runPagesSM_dry s ⟨0, 0, 0, 0⟩ pages⟩,
   fun _s _ost => rfl⟩
